import Mathlib

/-!
Verification development for the autodns-domain-health-checker repository.

The JavaScript sources are shallowly embedded: asynchronous DNS and API
calls become oracle functions collected in an environment structure, the
mutable accumulator arrays of the SPF resolver become threaded lists, and
every JS function is translated into a total Lean function over these
oracles.  Thrown JS exceptions are represented by `Option`/`Except`
values at the call sites where the source catches them.
-/

namespace AutoDNS

/-! ### JavaScript string primitives

Character-level models of the JS string operations the sources use:
`split(/\s+/)`, `includes`, `replace(/;\s*)/g, ';')`, `replace(/\s+/g, ' ')`,
`Array.prototype.join`, and `[...new Set(xs)]`. -/

/-- Model of `str.split(/\s+/)` on the character list: split at maximal
whitespace runs; a leading or trailing run contributes an empty piece,
exactly as in JavaScript.  `prevWs` records whether the previous character
was whitespace (so that a run is one single boundary), `cur` is the
current piece in reverse. -/
def splitWsAux : Bool → List Char → List Char → List (List Char)
  | _, [], cur => [cur.reverse]
  | prevWs, c :: rest, cur =>
    if c.isWhitespace then
      if prevWs then splitWsAux true rest cur
      else cur.reverse :: splitWsAux true rest []
    else splitWsAux false rest (c :: cur)

/-- `spfRecord.split(/\s+/)` from `resolveSpfIncludes`. -/
def splitWs (s : String) : List String :=
  (splitWsAux false s.data []).map List.asString

/-- Model of `list.startsWith pat` on character lists. -/
def listStartsWith : List Char → List Char → Bool
  | _, [] => true
  | [], _ :: _ => false
  | a :: as, b :: bs => a == b && listStartsWith as bs

/-- Helper for `containsSub` scanning every suffix. -/
def containsSubGo (pat : List Char) : List Char → Bool
  | [] => pat.isEmpty
  | l@(_ :: rest) => listStartsWith l pat || containsSubGo pat rest

/-- Model of JavaScript `s.includes(pat)` (substring test). -/
def containsSub (s pat : String) : Bool :=
  containsSubGo pat.data s.data

/-- Model of `dmarc.replace(/;\s*/g, ';')`: after every semicolon the
following whitespace run is removed.  The flag is true while whitespace
following a semicolon is being skipped. -/
def collapseSemiAux : Bool → List Char → List Char
  | _, [] => []
  | skipping, c :: rest =>
    if skipping && c.isWhitespace then collapseSemiAux true rest
    else if c = ';' then ';' :: collapseSemiAux true rest
    else c :: collapseSemiAux false rest

/-- `dmarc.replace(/;\s*/g, ';')`. -/
def collapseSemi (cs : List Char) : List Char :=
  collapseSemiAux false cs

/-- Model of `s.replace(/\s+/g, ' ')`: every whitespace run becomes one
single space.  The flag is true while inside a whitespace run. -/
def collapseWsAux : Bool → List Char → List Char
  | _, [] => []
  | prevWs, c :: rest =>
    if c.isWhitespace then
      if prevWs then collapseWsAux true rest
      else ' ' :: collapseWsAux true rest
    else c :: collapseWsAux false rest

/-- `s.replace(/\s+/g, ' ')`. -/
def collapseWs (cs : List Char) : List Char :=
  collapseWsAux false cs

/-- JS `str.trim()` modelled on the character list. -/
def jsTrim (s : String) : String :=
  (((s.data.dropWhile Char.isWhitespace).reverse.dropWhile
      Char.isWhitespace).reverse).asString

/-- JS `str.startsWith(pat)` modelled on the character lists. -/
def jsStartsWith (s pat : String) : Bool :=
  listStartsWith s.data pat.data

/-- JS `str.endsWith(pat)` modelled on the character lists. -/
def jsEndsWith (s pat : String) : Bool :=
  listStartsWith s.data.reverse pat.data.reverse

/-- JS `str.substring(n)` (drop the first `n` characters). -/
def jsDrop (s : String) (n : Nat) : String :=
  (s.data.drop n).asString

/-- Drop the last `n` characters (used for `replace(/\.$/, '')`). -/
def jsDropRight (s : String) (n : Nat) : String :=
  (s.data.take (s.data.length - n)).asString

/-- JS `str.toLowerCase()` (ASCII model). -/
def jsToLower (s : String) : String :=
  (s.data.map Char.toLower).asString

/-- Helper for `jsSplitComma`. -/
def splitCommaGo (cs : List Char) (cur : List Char) : List (List Char) :=
  match cs with
  | [] => [cur.reverse]
  | c :: rest =>
    if c = ',' then cur.reverse :: splitCommaGo rest []
    else splitCommaGo rest (c :: cur)

/-- JS `str.split(',')`. -/
def jsSplitComma (s : String) : List String :=
  (splitCommaGo s.data []).map List.asString

/-- `(s || '').replace(/\s+/g, ' ').trim()` — whitespace normalisation used
by the DKIM comparison in `checkDKIMForDomain`. -/
def normWs (s : String) : String :=
  jsTrim ((collapseWs s.data).asString)

/-- Body of `normalizeDMARC` for a non-null string argument:
`dmarc.replace(/;\s*/g, ';').replace(/\s+/g, ' ').trim()`. -/
def normalizeDMARCstr (s : String) : String :=
  jsTrim ((collapseWs (collapseSemi s.data)).asString)

/-- `normalizeDMARC` from `dmarc.js`: `null`/empty input gives `null`. -/
def normalizeDMARC : Option String → Option String
  | none => none
  | some s => if s = "" then none else some (normalizeDMARCstr s)

/-- Model of `Array.prototype.join(sep)`. -/
def joinSep (sep : String) : List String → String
  | [] => ""
  | [x] => x
  | x :: y :: ys => x ++ sep ++ joinSep sep (y :: ys)

/-- Model of `[...new Set(xs)]`: keep the first occurrence of every
element, preserving order.  `seen` is the set built so far. -/
def dedupFirstAux (seen : List String) : List String → List String
  | [] => []
  | x :: xs =>
    if x ∈ seen then dedupFirstAux seen xs
    else x :: dedupFirstAux (seen ++ [x]) xs

/-- `[...new Set(xs)]` as used by `buildFlattenedSpfRecord`. -/
def dedupFirst (l : List String) : List String := dedupFirstAux [] l

/-- JS `str.replace(/\.$/, '')`: remove one trailing dot. -/
def stripTrailingDot (s : String) : String :=
  if jsEndsWith s "." then jsDropRight s 1 else s

/-! ### Lemmas about the string primitives -/

theorem dedupFirstAux_sublist (seen : List String) :
    ∀ l : List String, (dedupFirstAux seen l).Sublist l := by
  intro l
  induction l generalizing seen with
  | nil => simp [dedupFirstAux]
  | cons x xs ih =>
    by_cases h : x ∈ seen
    · simpa [dedupFirstAux, h] using List.Sublist.cons x (ih seen)
    · simpa [dedupFirstAux, h] using List.Sublist.cons₂ x (ih (seen ++ [x]))

theorem mem_dedupFirstAux (seen : List String) (a : String) :
    ∀ l : List String, a ∈ dedupFirstAux seen l ↔ a ∈ l ∧ a ∉ seen := by
  intro l
  induction l generalizing seen with
  | nil => simp [dedupFirstAux]
  | cons x xs ih =>
    by_cases h : x ∈ seen
    · simp only [dedupFirstAux, if_pos h, ih, List.mem_cons]
      constructor
      · rintro ⟨ha, hs⟩; exact ⟨Or.inr ha, hs⟩
      · rintro ⟨ha | ha, hs⟩
        · exact absurd (ha ▸ h) hs
        · exact ⟨ha, hs⟩
    · simp only [dedupFirstAux, if_neg h, List.mem_cons, ih]
      constructor
      · rintro (rfl | ⟨ha, hs⟩)
        · exact ⟨Or.inl rfl, h⟩
        · refine ⟨Or.inr ha, fun hc => hs ?_⟩
          simp [hc]
      · rintro ⟨rfl | ha, hs⟩
        · exact Or.inl rfl
        · by_cases hax : a = x
          · exact Or.inl hax
          · exact Or.inr ⟨ha, by simp [hs, hax]⟩

theorem nodup_dedupFirstAux (seen : List String) :
    ∀ l : List String, (dedupFirstAux seen l).Nodup := by
  intro l
  induction l generalizing seen with
  | nil => simp [dedupFirstAux]
  | cons x xs ih =>
    by_cases h : x ∈ seen
    · simpa [dedupFirstAux, h] using ih seen
    · simp only [dedupFirstAux, if_neg h, List.nodup_cons]
      refine ⟨?_, ih (seen ++ [x])⟩
      intro hx
      rcases (mem_dedupFirstAux _ _ _).1 hx with ⟨_, hs⟩
      simp at hs

theorem dedupFirst_nodup (l : List String) : (dedupFirst l).Nodup :=
  nodup_dedupFirstAux [] l

theorem dedupFirst_sublist (l : List String) : (dedupFirst l).Sublist l :=
  dedupFirstAux_sublist [] l

theorem joinSep_append_single (sep : String) :
    ∀ xs : List String, ∀ m : String, xs ≠ [] →
      joinSep sep (xs ++ [m]) = joinSep sep xs ++ sep ++ m := by
  intro xs
  induction xs with
  | nil => intro m h; exact absurd rfl h
  | cons x ys ih =>
    intro m _
    cases ys with
    | nil => simp [joinSep]
    | cons y zs =>
      have h2 : (y :: zs : List String) ≠ [] := by simp
      calc joinSep sep ((x :: y :: zs) ++ [m])
          = x ++ sep ++ joinSep sep ((y :: zs) ++ [m]) := by
            simp [joinSep]
        _ = x ++ sep ++ (joinSep sep (y :: zs) ++ sep ++ m) := by
            rw [ih m h2]
        _ = joinSep sep (x :: y :: zs) ++ sep ++ m := by
            simp [joinSep, String.append_assoc]

/-! ### Data model and environment

Oracle view of the asynchronous world.  A `none`/empty answer stands for a
rejected promise at a call site where the source catches the rejection;
where the source distinguishes absence from other failures the oracle is
`Except`-valued. -/

/-- One entry of `zone.resourceRecords` (the fields the reconcilers use). -/
structure ResourceRecord where
  name : String
  type : String
  value : String
  ttl : Nat
deriving Repr, DecidableEq

/-- A zone as the reconcilers see it.  Only `resourceRecords` is read or
written by them; the read-only metadata fields of the raw API object are
modelled separately for `updateZone`. -/
structure Zone where
  resourceRecords : Option (List ResourceRecord)
deriving Repr, DecidableEq

/-- `{refresh, retry, expire, minttl}` of a SOA answer. -/
structure SoaData where
  refresh : Nat
  retry : Nat
  expire : Nat
  minttl : Nat
deriving Repr, DecidableEq

/-- A CAA answer entry; an empty string models a missing (falsy) field. -/
structure CaaData where
  issue : String
  issuewild : String
  tag : String
deriving Repr, DecidableEq

/-- An entry produced by `checkDKIMRecords`/`listZoneDKIMRecords`.  Error
entries from `checkDKIMRecords` have `found = false` and no `fullValue`. -/
structure DkimEntry where
  selector : String
  found : Bool
  fullValue : Option String
deriving Repr, DecidableEq

/-- The oracle environment: results of every asynchronous call the audited
functions make.

* `spf d` — result of `getSPFRecord d` inside the SPF flattener: `some r`
  when a TXT record starting `v=spf1` exists, `none` when the record is
  absent (`ENODATA`/`ENOTFOUND`) or the lookup throws — both make
  `resolveSpfIncludes` skip the include.
* `resolve4`/`resolve6`/`resolveMx`/`resolveNs`/`resolveSoa`/`resolveCaa`/
  `reversePtr` — `none` models a rejected promise.
* `safeTxt` — `safeResolveTxt` (already total in the source).
* `spfQuery`/`dmarcQuery` — the audited domain's SPF/DMARC lookups inside
  `checkDomain` (`Except.error` = thrown error or query timeout,
  `Except.ok none` = record absent).
* `zoneData` — `getZone(...).data` for `getRecordsForDomain`.
* `dkimDns`/`zoneDkim` — results of `checkDKIMRecords`/`listZoneDKIMRecords`.
* `dkimUpdateOk s` — boolean result of `updateDomainDKIMRecord` for
  selector `s`.
* `spfUpdateRes` — outcome of `updateDomainSPFRecord` (it rethrows).
* `dmarcUpdateOk`/`reportAuthOk` — boolean results of
  `updateDomainDMARCRecord`/`addDMARCReportAuthRecord` (they never throw). -/
structure Env where
  spf : String → Option String
  resolve4 : String → Option (List String)
  resolve6 : String → Option (List String)
  resolveMx : String → Option (List String)
  resolveNs : String → Option (List String)
  resolveSoa : String → Option SoaData
  resolveCaa : String → Option (List CaaData)
  safeTxt : String → List (List String)
  httpsFetch : String → Option String
  reversePtr : String → Option (List String)
  spfQuery : Except String (Option String)
  dmarcQuery : Except String (Option String)
  zoneData : Option (List Zone)
  dkimDns : List DkimEntry
  zoneDkim : List DkimEntry
  dkimUpdateOk : String → Bool
  spfUpdateRes : Except String Unit
  dmarcUpdateOk : Bool
  reportAuthOk : Bool

/-- An environment in which every lookup fails or is empty. -/
def defaultEnv : Env where
  spf := fun _ => none
  resolve4 := fun _ => none
  resolve6 := fun _ => none
  resolveMx := fun _ => none
  resolveNs := fun _ => none
  resolveSoa := fun _ => none
  resolveCaa := fun _ => none
  safeTxt := fun _ => []
  httpsFetch := fun _ => none
  reversePtr := fun _ => none
  spfQuery := Except.ok none
  dmarcQuery := Except.ok none
  zoneData := none
  dkimDns := []
  zoneDkim := []
  dkimUpdateOk := fun _ => false
  spfUpdateRes := Except.ok ()
  dmarcUpdateOk := true
  reportAuthOk := true

/-! ### SPF flattener (`spf.js` + `dns-operations.js`) -/

/-- `resolveHostToIPs` from `dns-operations.js`: both resolver calls are
individually wrapped in try/catch, so the function is total and a failed
resolution contributes nothing. -/
def resolveHostToIPs (env : Env) (hostname : String) : List String :=
  ((env.resolve4 hostname).getD []).map (fun ip => "ip4:" ++ ip) ++
    ((env.resolve6 hostname).getD []).map (fun ip => "ip6:" ++ ip)

/-- `resolveMxToIPs` from `dns-operations.js`: the MX lookup is wrapped in
try/catch and `resolveHostToIPs` is total, so this is total too. -/
def resolveMxToIPs (env : Env) (domain : String) : List String :=
  (((env.resolveMx domain).getD []).map (fun mx => resolveHostToIPs env mx)).flatten

/-- Result of `resolveSpfIncludes`: the `mechanisms`/`modifiers` arrays,
the shared `visited` set (threaded, since JS shares one mutable `Set`
across the whole recursion tree), and — as observational instrumentation —
the list `lookups` of domains for which `getSPFRecord` was invoked, in
call order. -/
structure SpfResult where
  mechanisms : List String
  modifiers : List String
  visited : List String
  lookups : List String
deriving Repr, DecidableEq

/-- The term loop of `resolveSpfIncludes`, abstracted over the recursive
call `child` made for an `include:` term (the `child` already embodies the
depth guard of the next level).  The JS `mechanisms.push(...)` /
`modifiers.push(...)` accumulation appears as left-to-right list
concatenation, and the shared mutable visited `Set` is threaded through in
evaluation order. -/
def resolveLoop (env : Env) (child : String → List String → SpfResult) :
    List String → List String → SpfResult
  | [], visited => ⟨[], [], visited, []⟩
  | part :: rest, visited =>
    if part = "v=spf1" then
      resolveLoop env child rest visited
    else if jsStartsWith part "include:" then
      let d := jsDrop part 8
      if d ∈ visited then
        resolveLoop env child rest visited
      else
        let visited1 := visited ++ [d]
        match env.spf d with
        | some inc =>
          let c := child inc visited1
          let restRes := resolveLoop env child rest c.visited
          ⟨c.mechanisms ++ restRes.mechanisms,
            c.modifiers ++ restRes.modifiers,
            restRes.visited,
            d :: (c.lookups ++ restRes.lookups)⟩
        | none =>
          let restRes := resolveLoop env child rest visited1
          ⟨restRes.mechanisms, restRes.modifiers, restRes.visited,
            d :: restRes.lookups⟩
    else if jsStartsWith part "redirect=" then
      let restRes := resolveLoop env child rest visited
      ⟨restRes.mechanisms, part :: restRes.modifiers, restRes.visited,
        restRes.lookups⟩
    else if part = "all" || jsStartsWith part "-all" ||
        jsStartsWith part "~all" || jsStartsWith part "+all" ||
        jsStartsWith part "?all" then
      let restRes := resolveLoop env child rest visited
      ⟨restRes.mechanisms, part :: restRes.modifiers, restRes.visited,
        restRes.lookups⟩
    else if part = "a" || part = "mx" then
      let restRes := resolveLoop env child rest visited
      ⟨part :: restRes.mechanisms, restRes.modifiers, restRes.visited,
        restRes.lookups⟩
    else if jsStartsWith part "a:" then
      let ips := resolveHostToIPs env (jsDrop part 2)
      let restRes := resolveLoop env child rest visited
      ⟨ips ++ restRes.mechanisms, restRes.modifiers, restRes.visited,
        restRes.lookups⟩
    else if jsStartsWith part "mx:" then
      let ips := resolveMxToIPs env (jsDrop part 3)
      let restRes := resolveLoop env child rest visited
      ⟨ips ++ restRes.mechanisms, restRes.modifiers, restRes.visited,
        restRes.lookups⟩
    else
      let restRes := resolveLoop env child rest visited
      ⟨part :: restRes.mechanisms, restRes.modifiers, restRes.visited,
        restRes.lookups⟩

/-- `resolveSpfIncludes` indexed by the number of recursion levels that
remain before the `depth > 10` guard fires: `resolveFuel env f`
corresponds to a JS call at `depth = 11 - f`, so `f = 0` is a call at
`depth > 10`, which returns the empty result without touching the record
(the JS guard sits at function entry). -/
def resolveFuel (env : Env) : Nat → String → List String → SpfResult
  | 0, _, visited => ⟨[], [], visited, []⟩
  | f + 1, spfRecord, visited =>
    resolveLoop env (resolveFuel env f) (splitWs spfRecord) visited

/-- `resolveSpfIncludes(spfRecord, visited, depth)` from `spf.js`: a call
at depth `d` has `11 - d` levels of recursion available (truncated
subtraction makes every `d > 10` give fuel `0`, i.e. the guard branch). -/
def resolveSpfIncludes (env : Env) (spfRecord : String)
    (visited : List String) (depth : Nat) : SpfResult :=
  resolveFuel env (11 - depth) spfRecord visited

/-- `buildFlattenedSpfRecord` from `spf.js`. -/
def buildFlattenedSpfRecord (env : Env) (baseSpfRecord : String) : String :=
  let resolved := resolveSpfIncludes env baseSpfRecord [] 0
  let uniqueMechanisms := dedupFirst resolved.mechanisms
  let uniqueModifiers := dedupFirst resolved.modifiers
  let allModifier := uniqueModifiers.find? (fun m => containsSub m "all")
  let otherModifiers := uniqueModifiers.filter (fun m => !containsSub m "all")
  joinSep " " (("v=spf1" :: uniqueMechanisms) ++ otherModifiers ++
    allModifier.toList)

/-- Is a term one of the all-family modifiers (`all`, `-all`, `~all`,
`+all`, `?all` with optional tail), exactly the classification
`resolveSpfIncludes` itself uses when accumulating modifiers? -/
def isAllTerm (m : String) : Bool :=
  m == "all" || jsStartsWith m "-all" || jsStartsWith m "~all" ||
    jsStartsWith m "+all" || jsStartsWith m "?all"

/-- Output assembly as claim C2 states it: the non-`all` modifiers, then
the `all` modifier last — with the `all` modifier identified as an
all-family term rather than by the substring test the source uses. -/
def buildFlattenedSpfRecordClaim (env : Env) (baseSpfRecord : String) :
    String :=
  let resolved := resolveSpfIncludes env baseSpfRecord [] 0
  let uniqueMechanisms := dedupFirst resolved.mechanisms
  let uniqueModifiers := dedupFirst resolved.modifiers
  let allModifier := uniqueModifiers.find? isAllTerm
  let otherModifiers := uniqueModifiers.filter (fun m => !isAllTerm m)
  joinSep " " (("v=spf1" :: uniqueMechanisms) ++ otherModifiers ++
    allModifier.toList)

/-! ### Visited-set invariant of the SPF flattener -/

/-- Invariant of one recursion level: the visited set only grows, by
exactly the domains looked up at this level (in order), and growing it
preserves `Nodup`. -/
def VisitedInv (g : String → List String → SpfResult) : Prop :=
  ∀ rec visited, (g rec visited).visited = visited ++ (g rec visited).lookups ∧
    (visited.Nodup → (g rec visited).visited.Nodup)

theorem resolveLoop_inv (env : Env) (child : String → List String → SpfResult)
    (hc : VisitedInv child) :
    ∀ parts visited,
      (resolveLoop env child parts visited).visited =
        visited ++ (resolveLoop env child parts visited).lookups ∧
      (visited.Nodup → (resolveLoop env child parts visited).visited.Nodup) := by
  intro parts
  induction parts with
  | nil => intro visited; simp [resolveLoop]
  | cons part rest ih =>
    intro visited
    simp only [resolveLoop]
    split_ifs with h1 h2 h3 h4 h5 h6 h7 h8
    · exact ih visited
    · exact ih visited
    · -- fresh include domain
      cases hspf : env.spf (jsDrop part 8) with
      | some inc =>
        simp only
        obtain ⟨hcv, hcn⟩ := hc inc (visited ++ [jsDrop part 8])
        obtain ⟨hrv, hrn⟩ := ih (child inc (visited ++ [jsDrop part 8])).visited
        constructor
        · rw [hrv, hcv]
          simp [List.append_assoc]
        · intro hn
          apply hrn
          apply hcn
          simp only [List.nodup_append, List.nodup_cons, List.nodup_nil]
          exact ⟨hn, by simp, fun a ha had => h3 ((List.mem_singleton.mp had) ▸ ha)⟩
      | none =>
        simp only
        obtain ⟨hrv, hrn⟩ := ih (visited ++ [jsDrop part 8])
        constructor
        · rw [hrv]
          simp [List.append_assoc]
        · intro hn
          apply hrn
          simp only [List.nodup_append, List.nodup_cons, List.nodup_nil]
          exact ⟨hn, by simp, fun a ha had => h3 ((List.mem_singleton.mp had) ▸ ha)⟩
    · exact ih visited
    · exact ih visited
    · exact ih visited
    · exact ih visited
    · exact ih visited
    · exact ih visited

theorem resolveFuel_inv (env : Env) :
    ∀ fuel, VisitedInv (resolveFuel env fuel) := by
  intro fuel
  induction fuel with
  | zero => intro rec visited; simp [resolveFuel]
  | succ f ih =>
    intro rec visited
    exact resolveLoop_inv env (resolveFuel env f) ih (splitWs rec) visited

theorem resolveSpfIncludes_inv (env : Env) (rec : String)
    (visited : List String) (depth : Nat) :
    (resolveSpfIncludes env rec visited depth).visited =
      visited ++ (resolveSpfIncludes env rec visited depth).lookups ∧
    (visited.Nodup → (resolveSpfIncludes env rec visited depth).visited.Nodup) :=
  resolveFuel_inv env (11 - depth) rec visited

/-- Include graph with a two-cycle: `a.com` includes `b.com` and vice
versa. -/
def cycleSpf (d : String) : Option String :=
  if d = "a.com" then some "v=spf1 include:b.com -all"
  else if d = "b.com" then some "v=spf1 include:a.com -all"
  else none

/-- Environment exposing the cyclic include graph. -/
def cycleEnv : Env := { defaultEnv with spf := cycleSpf }

/-- Claim C1: for every SPF record string and every include graph —
cyclic ones included — `resolveSpfIncludes` terminates (it is a total
function of this development) and returns a finite result; a call at
recursion depth greater than 10 returns the empty result for that
subtree; a domain already present in the shared visited set is never
re-entered, so every include domain is looked up at most once across the
whole recursion tree (the `lookups` instrumentation has no duplicates and
is disjoint from the initial visited set); and the cyclic graph
`a.com ↔ b.com` resolves to a concrete finite result. -/
theorem spf_flattener_terminates_and_visits_once :
    (∀ (env : Env) (rec : String) (visited : List String) (depth : Nat),
        10 < depth →
        resolveSpfIncludes env rec visited depth = ⟨[], [], visited, []⟩) ∧
    (∀ (env : Env) (rec : String) (visited : List String) (depth : Nat),
        visited.Nodup →
        (resolveSpfIncludes env rec visited depth).lookups.Nodup ∧
        ∀ d ∈ (resolveSpfIncludes env rec visited depth).lookups,
          d ∉ visited) ∧
    resolveSpfIncludes cycleEnv "v=spf1 include:a.com -all" [] 0 =
      ⟨[], ["-all", "-all", "-all"], ["a.com", "b.com"], ["a.com", "b.com"]⟩ := by
  refine ⟨?_, ?_, by decide⟩
  · intro env rec visited depth h
    have h0 : 11 - depth = 0 := by omega
    simp [resolveSpfIncludes, h0, resolveFuel]
  · intro env rec visited depth hn
    obtain ⟨hv, hvn⟩ := resolveSpfIncludes_inv env rec visited depth
    have hall : (visited ++ (resolveSpfIncludes env rec visited depth).lookups).Nodup := by
      rw [← hv]; exact hvn hn
    rw [List.nodup_append] at hall
    exact ⟨hall.2.1, fun d hd hdv => hall.2.2 hdv hd⟩

theorem spf_flattener_terminates_and_visits_once_witness :
    (10 < 11 ∧
      resolveSpfIncludes defaultEnv "v=spf1 a -all" ["seen.com"] 11 =
        ⟨[], [], ["seen.com"], []⟩) ∧
    ((["seen.com"] : List String).Nodup ∧
      (resolveSpfIncludes cycleEnv "v=spf1 include:a.com -all" ["seen.com"] 0).lookups.Nodup ∧
      ∀ d ∈ (resolveSpfIncludes cycleEnv "v=spf1 include:a.com -all"
          ["seen.com"] 0).lookups, d ∉ (["seen.com"] : List String)) := by
  refine ⟨⟨by omega,
    spf_flattener_terminates_and_visits_once.1 defaultEnv "v=spf1 a -all"
      ["seen.com"] 11 (by omega)⟩, by decide, ?_⟩
  exact spf_flattener_terminates_and_visits_once.2.1 cycleEnv
    "v=spf1 include:a.com -all" ["seen.com"] 0 (by decide)

/-! ### Flattened record assembly (claim C2) -/

/-- Two includes that both resolve to the same flat record. -/
def dedupSpf (d : String) : Option String :=
  if d = "x.com" then some "v=spf1 ip4:1.1.1.1 -all"
  else if d = "y.com" then some "v=spf1 ip4:1.1.1.1 -all"
  else none

/-- Environment for the dedup example of claim C2. -/
def dedupEnv : Env := { defaultEnv with spf := dedupSpf }

theorem joinSep_cons_exists (x : String) (l : List String) :
    ∃ r, joinSep " " (x :: l) = x ++ r := by
  cases l with
  | nil => exact ⟨"", by simp [joinSep]⟩
  | cons y ys => exact ⟨" " ++ joinSep " " (y :: ys), by simp [joinSep, String.append_assoc]⟩

/-- Claim C2 (amended): the output starts with `v=spf1`; the emitted
mechanism list is the input mechanisms deduplicated by string equality
keeping the first occurrence in order; the modifier emitted last is the
first deduplicated modifier that contains the substring `all` (the source
classifies the terminal modifier by the substring test `m.includes('all')`,
not by membership in the all-family — any further modifier containing
`all` is dropped); and the dedup example (two includes both resolving to
`v=spf1 ip4:1.1.1.1 -all`) yields exactly one `ip4:1.1.1.1` mechanism and
output ending in `-all`. -/
theorem buildFlattenedSpf_assembly :
    (∀ (env : Env) (rec : String),
        ∃ r, buildFlattenedSpfRecord env rec = "v=spf1" ++ r) ∧
    (∀ (env : Env) (rec : String),
        (dedupFirst (resolveSpfIncludes env rec [] 0).mechanisms).Nodup ∧
        (dedupFirst (resolveSpfIncludes env rec [] 0).mechanisms).Sublist
          (resolveSpfIncludes env rec [] 0).mechanisms) ∧
    (∀ (env : Env) (rec m : String),
        (dedupFirst (resolveSpfIncludes env rec [] 0).modifiers).find?
            (fun x => containsSub x "all") = some m →
        ∃ p, buildFlattenedSpfRecord env rec = p ++ " " ++ m) ∧
    buildFlattenedSpfRecord dedupEnv "v=spf1 include:x.com include:y.com -all" =
      "v=spf1 ip4:1.1.1.1 -all" ∧
    dedupFirst (resolveSpfIncludes dedupEnv
        "v=spf1 include:x.com include:y.com -all" [] 0).mechanisms =
      ["ip4:1.1.1.1"] := by
  refine ⟨?_, ?_, ?_, by decide, by decide⟩
  · intro env rec
    exact joinSep_cons_exists _ _
  · intro env rec
    exact ⟨dedupFirst_nodup _, dedupFirst_sublist _⟩
  · intro env rec m hm
    refine ⟨joinSep " "
      (("v=spf1" :: dedupFirst (resolveSpfIncludes env rec [] 0).mechanisms) ++
        (dedupFirst (resolveSpfIncludes env rec [] 0).modifiers).filter
          (fun x => !containsSub x "all")), ?_⟩
    simp only [buildFlattenedSpfRecord, hm, Option.toList_some]
    rw [← joinSep_append_single " " _ m (by simp)]

theorem buildFlattenedSpf_assembly_witness :
    ((dedupFirst (resolveSpfIncludes defaultEnv "v=spf1 -all" [] 0).modifiers).find?
        (fun x => containsSub x "all") = some "-all") ∧
    ∃ p, buildFlattenedSpfRecord defaultEnv "v=spf1 -all" = p ++ " " ++ "-all" :=
  ⟨by decide, buildFlattenedSpf_assembly.2.2.1 defaultEnv "v=spf1 -all" "-all" (by decide)⟩

/-- Claim C2 counterexample: on `v=spf1 redirect=ball.example -all` the
modifier `redirect=ball.example` contains the substring `all`, so the
source emits it as the terminal modifier and drops `-all` entirely, while
the claim prescribes the non-`all` modifier first and the `all` modifier
(`-all`) last. -/
theorem buildFlattenedSpf_claim_counterexample :
    buildFlattenedSpfRecord defaultEnv "v=spf1 redirect=ball.example -all" =
      "v=spf1 redirect=ball.example" ∧
    buildFlattenedSpfRecordClaim defaultEnv "v=spf1 redirect=ball.example -all" =
      "v=spf1 redirect=ball.example -all" ∧
    buildFlattenedSpfRecord defaultEnv "v=spf1 redirect=ball.example -all" ≠
      buildFlattenedSpfRecordClaim defaultEnv "v=spf1 redirect=ball.example -all" :=
  ⟨by decide, by decide, by decide⟩

/-! ### Token-bucket rate limiter (`autodns-client.js`) -/

/-- `RATE_LIMIT.CAPACITY`. -/
def RATE_CAPACITY : Nat := 3

/-- The limiter state `autodnsRate`: current tokens and the FIFO wait
queue; queued callers are identified by opaque numeric ids. -/
structure LimiterState where
  tokens : Nat
  queue : List Nat
deriving Repr, DecidableEq

/-- `rateLimitAutoDNS()`: with a token available the promise resolves
immediately (`true`) and one token is consumed; otherwise the resolver is
appended to the FIFO queue (`false`) and nothing else changes. -/
def rateLimitAcquire (s : LimiterState) (callerId : Nat) :
    Bool × LimiterState :=
  if 0 < s.tokens then (true, ⟨s.tokens - 1, s.queue⟩)
  else (false, ⟨s.tokens, s.queue ++ [callerId]⟩)

/-- The `while (tokens > 0 && queue.length > 0)` loop of the refill
timer; `processed` collects the released callers in FIFO order. -/
def refillDrain : Nat → List Nat → List Nat → Nat × List Nat × List Nat
  | 0, queue, processed => (0, queue, processed)
  | t + 1, [], processed => (t + 1, [], processed)
  | t + 1, c :: rest, processed => refillDrain t rest (processed ++ [c])

/-- One tick of the refill timer: tokens are refilled to capacity and
then queued callers are released first, so only the tokens left after
serving the queue are available to later arrivals. -/
def refillTick (s : LimiterState) : List Nat × LimiterState :=
  let r := refillDrain RATE_CAPACITY s.queue []
  (r.2.2, ⟨r.1, r.2.1⟩)

/-- A sequence of `rateLimitAutoDNS()` acquisitions in issue order,
returning for each caller whether it resolved immediately. -/
def acquireSeq (s : LimiterState) (ids : List Nat) :
    List (Nat × Bool) × LimiterState :=
  match ids with
  | [] => ([], s)
  | id :: rest =>
    let r1 := rateLimitAcquire s id
    let r2 := acquireSeq r1.2 rest
    ((id, r1.1) :: r2.1, r2.2)

theorem refillDrain_eq (tokens : Nat) :
    ∀ (queue processed : List Nat),
      refillDrain tokens queue processed =
        (tokens - min tokens queue.length, queue.drop tokens,
          processed ++ queue.take tokens) := by
  induction tokens with
  | zero => intro q p; simp [refillDrain]
  | succ t ih =>
    intro q p
    cases q with
    | nil => simp [refillDrain]
    | cons c rest =>
      simp only [refillDrain, ih, List.length_cons, List.drop_succ_cons,
        List.take_succ_cons, Nat.succ_min_succ, Nat.succ_sub_succ,
        List.append_assoc, List.singleton_append]

/-- Claim C3: an acquisition made while tokens remain resolves
immediately and consumes one token; an acquisition with no token is
queued (and no queued caller is ever released by an acquire); issuing
`capacity + 2 = 5` acquisitions against a full limiter of capacity 3
resolves the first three immediately and leaves exactly the callers 4 and
5 queued; a refill tick releases the queued callers first, in FIFO
order, and only the remaining tokens are available to later arrivals, so
the late caller 6 gets the one token left after 4 and 5 were served. -/
theorem rate_limiter_fifo_spec :
    (∀ (s : LimiterState) (id : Nat), 0 < s.tokens →
        rateLimitAcquire s id = (true, ⟨s.tokens - 1, s.queue⟩)) ∧
    (∀ (s : LimiterState) (id : Nat), s.tokens = 0 →
        rateLimitAcquire s id = (false, ⟨0, s.queue ++ [id]⟩)) ∧
    acquireSeq ⟨RATE_CAPACITY, []⟩ [1, 2, 3, 4, 5] =
      ([(1, true), (2, true), (3, true), (4, false), (5, false)],
        ⟨0, [4, 5]⟩) ∧
    (∀ s : LimiterState,
        refillTick s =
          (s.queue.take RATE_CAPACITY,
            ⟨RATE_CAPACITY - min RATE_CAPACITY s.queue.length,
              s.queue.drop RATE_CAPACITY⟩)) ∧
    refillTick ⟨0, [4, 5]⟩ = ([4, 5], ⟨1, []⟩) ∧
    rateLimitAcquire (refillTick ⟨0, [4, 5]⟩).2 6 = (true, ⟨0, []⟩) := by
  refine ⟨?_, ?_, by decide, ?_, by decide, by decide⟩
  · intro s id h
    simp [rateLimitAcquire, h]
  · intro s id h
    simp [rateLimitAcquire, h]
  · intro s
    simp [refillTick, refillDrain_eq]

theorem rate_limiter_fifo_spec_witness :
    (0 < (⟨3, []⟩ : LimiterState).tokens ∧
      rateLimitAcquire ⟨3, []⟩ 1 = (true, ⟨2, []⟩)) ∧
    ((⟨0, [7]⟩ : LimiterState).tokens = 0 ∧
      rateLimitAcquire ⟨0, [7]⟩ 8 = (false, ⟨0, [7, 8]⟩)) :=
  ⟨⟨by decide, rate_limiter_fifo_spec.1 ⟨3, []⟩ 1 (by decide)⟩,
    ⟨by decide, rate_limiter_fifo_spec.2.1 ⟨0, [7]⟩ 8 (by decide)⟩⟩

/-! ### Retry classification (`autodns-client.js`) -/

/-- The error shape `isRetryableError` inspects: `error.code` for
transport failures and `error.response.status` for HTTP responses
(`none` = no response object). -/
structure ApiError where
  code : Option String
  responseStatus : Option Nat
deriving Repr, DecidableEq

/-- `isRetryableError` from `autodns-client.js`. -/
def isRetryableError (e : ApiError) : Bool :=
  if e.code = some "ECONNRESET" ∨ e.code = some "ETIMEDOUT" ∨
      e.code = some "ENOTFOUND" then true
  else
    match e.responseStatus with
    | some s => if 500 ≤ s then true else if s = 429 then true else false
    | none => false

/-- `RETRY_CONFIG.RETRIES`. -/
def RETRY_RETRIES : Nat := 3

/-- `RETRY_CONFIG.MIN_TIMEOUT` (ms). -/
def RETRY_MIN_TIMEOUT : Nat := 1000

/-- `RETRY_CONFIG.MAX_TIMEOUT` (ms). -/
def RETRY_MAX_TIMEOUT : Nat := 5000

/-- `RETRY_CONFIG.FACTOR`. -/
def RETRY_FACTOR : Nat := 2

/-- Delay before retrying after the `n`-th failed attempt, per the
documented behaviour of the external `p-retry`/`retry` dependency:
`minTimeout * factor^(n-1)` capped at `maxTimeout`. -/
def backoffDelay (n : Nat) : Nat :=
  min (RETRY_MIN_TIMEOUT * RETRY_FACTOR ^ (n - 1)) RETRY_MAX_TIMEOUT

/-- Model of the retry loop that `pRetry` runs around every API call in
`autodns-client.js`: `attempts n` is the outcome of the `n`-th attempt of
the wrapped function (1-indexed).  The wrapped function rethrows an error
classified retryable (`pRetry` then retries while retries remain) and
wraps any other error in `AbortError` (`pRetry` then stops immediately).
The second component is the number of attempts that were made. -/
def runWithRetry {α : Type} (attempts : Nat → Except ApiError α)
    (attemptNo retriesLeft : Nat) : Except ApiError α × Nat :=
  match attempts attemptNo with
  | .ok a => (.ok a, attemptNo)
  | .error e =>
    if isRetryableError e then
      match retriesLeft with
      | 0 => (.error e, attemptNo)
      | r + 1 => runWithRetry attempts (attemptNo + 1) r
    else (.error e, attemptNo)
termination_by retriesLeft

/-- `queryDomains` retry wrapper (the request body itself is opaque). -/
def queryDomains {α : Type} (attempts : Nat → Except ApiError α) :
    Except ApiError α × Nat :=
  runWithRetry attempts 1 RETRY_RETRIES

/-- `getZone` retry wrapper — same `pRetry` configuration. -/
def getZoneCall {α : Type} (attempts : Nat → Except ApiError α) :
    Except ApiError α × Nat :=
  runWithRetry attempts 1 RETRY_RETRIES

/-- `updateZone` retry wrapper — same `pRetry` configuration. -/
def updateZoneCall {α : Type} (attempts : Nat → Except ApiError α) :
    Except ApiError α × Nat :=
  runWithRetry attempts 1 RETRY_RETRIES

/-- The classification exactly as claim C4 words it. -/
def ClaimRetryable (e : ApiError) : Prop :=
  e.code = some "ECONNRESET" ∨ e.code = some "ETIMEDOUT" ∨
    e.code = some "ENOTFOUND" ∨
    ∃ s, e.responseStatus = some s ∧ (500 ≤ s ∨ s = 429)

theorem isRetryable_iff (e : ApiError) :
    isRetryableError e = true ↔ ClaimRetryable e := by
  rcases e with ⟨c, st⟩
  by_cases h1 : c = some "ECONNRESET"
  · simp [isRetryableError, ClaimRetryable, h1]
  by_cases h2 : c = some "ETIMEDOUT"
  · simp [isRetryableError, ClaimRetryable, h1, h2]
  by_cases h3 : c = some "ENOTFOUND"
  · simp [isRetryableError, ClaimRetryable, h1, h2, h3]
  cases st with
  | none => simp [isRetryableError, ClaimRetryable, h1, h2, h3]
  | some s =>
    by_cases h4 : 500 ≤ s
    · simp [isRetryableError, ClaimRetryable, h1, h2, h3, h4]
    by_cases h5 : s = 429
    · simp [isRetryableError, ClaimRetryable, h1, h2, h3, h4, h5]
    · simp [isRetryableError, ClaimRetryable, h1, h2, h3, h4, h5]

/-- Claim C4: every API call (domain search, zone read, zone write) uses
the same retry wrapper; a failed attempt is retried exactly when the
failure is a transport error (`ECONNRESET`/`ETIMEDOUT`/`ENOTFOUND`) or an
HTTP response with status ≥ 500 or = 429; any other failure aborts on the
first attempt with no retry; a persistently retryable failure consumes
the configured `1 + RETRY_RETRIES = 4` attempts; a retryable failure
followed by success returns the success; the backoff delays are
exponential (1000, 2000, 4000 ms, capped at 5000). -/
theorem retry_exactly_on_retryable :
    (∀ e : ApiError, isRetryableError e = true ↔ ClaimRetryable e) ∧
    (∀ (α : Type) (attempts : Nat → Except ApiError α) (e : ApiError),
        attempts 1 = .error e → isRetryableError e = false →
        queryDomains attempts = (.error e, 1) ∧
        getZoneCall attempts = (.error e, 1) ∧
        updateZoneCall attempts = (.error e, 1)) ∧
    (∀ (α : Type) (attempts : Nat → Except ApiError α) (e : ApiError),
        (∀ n, attempts n = .error e) → isRetryableError e = true →
        queryDomains attempts = (.error e, 4)) ∧
    (∀ (α : Type) (attempts : Nat → Except ApiError α) (e : ApiError) (a : α),
        attempts 1 = .error e → isRetryableError e = true →
        attempts 2 = .ok a →
        queryDomains attempts = (.ok a, 2)) ∧
    (isRetryableError ⟨none, some 404⟩ = false ∧
      isRetryableError ⟨none, some 429⟩ = true ∧
      isRetryableError ⟨none, some 503⟩ = true ∧
      isRetryableError ⟨some "ETIMEDOUT", none⟩ = true ∧
      backoffDelay 1 = 1000 ∧ backoffDelay 2 = 2000 ∧
      backoffDelay 3 = 4000 ∧ ∀ n, backoffDelay n ≤ 5000) := by
  refine ⟨isRetryable_iff, ?_, ?_, ?_,
    by decide, by decide, by decide, by decide, by decide, by decide,
    by decide, fun n => Nat.min_le_right _ _⟩
  · intro α attempts e h1 hf
    refine ⟨?_, ?_, ?_⟩ <;>
      simp [queryDomains, getZoneCall, updateZoneCall, RETRY_RETRIES,
        runWithRetry, h1, hf]
  · intro α attempts e h hr
    simp [queryDomains, RETRY_RETRIES, runWithRetry, h 1, h 2, h 3, h 4, hr]
  · intro α attempts e a h1 hr h2
    simp [queryDomains, RETRY_RETRIES, runWithRetry, h1, h2, hr]

theorem retry_exactly_on_retryable_witness :
    ((fun _ : Nat => (Except.error ⟨none, some 404⟩ : Except ApiError Nat)) 1 =
        Except.error ⟨none, some 404⟩ ∧
      isRetryableError ⟨none, some 404⟩ = false ∧
      queryDomains (fun _ : Nat =>
        (Except.error ⟨none, some 404⟩ : Except ApiError Nat)) =
        (Except.error ⟨none, some 404⟩, 1)) ∧
    ((∀ n, (fun _ : Nat =>
        (Except.error ⟨none, some 429⟩ : Except ApiError Nat)) n =
        Except.error ⟨none, some 429⟩) ∧
      queryDomains (fun _ : Nat =>
        (Except.error ⟨none, some 429⟩ : Except ApiError Nat)) =
        (Except.error ⟨none, some 429⟩, 4)) :=
  ⟨⟨rfl, by decide,
    (retry_exactly_on_retryable.2.1 Nat _ ⟨none, some 404⟩ rfl (by decide)).1⟩,
    ⟨fun _ => rfl,
      retry_exactly_on_retryable.2.2.1 Nat _ ⟨none, some 429⟩ (fun _ => rfl)
        (by decide)⟩⟩

/-! ### Zone record reconcilers (`spf.js`, `dmarc.js`) -/

/-- Update the first list entry satisfying `p` (the `for ... break` loops
of the reconcilers); `none` when no entry matches. -/
def updateFirst {α : Type} (p : α → Bool) (f : α → α) :
    List α → Option (List α)
  | [] => none
  | x :: xs =>
    if p x then some (f x :: xs)
    else (updateFirst p f xs).map (fun l => x :: l)

/-- The apex-CNAME guard of `updateDomainSPFRecord`. -/
def hasApexCname (zone : Zone) : Bool :=
  (zone.resourceRecords.getD []).any (fun rr =>
    rr.type == "CNAME" && (rr.name == "" || rr.name == "@"))

/-- The conflict error message thrown by the guard. -/
def apexCnameError : String :=
  "Apex has a CNAME record; cannot add/update SPF TXT at zone apex due to DNS constraints"

/-- `updateDomainSPFRecord` after the zone has been fetched:
`zoneInfoData` is `zoneInfo.data` (`none`/empty = invalid).  `Except.ok z`
means `updateZone` is invoked with zone `z`; `Except.error` means the
function throws and issues no write.  A missing `resourceRecords` array is
defaulted to `[]` as in the source. -/
def updateDomainSPFRecord (zoneInfoData : Option (List Zone))
    (spfValue : String) : Except String Zone :=
  match zoneInfoData with
  | some (zone :: _) =>
    let rrs := zone.resourceRecords.getD []
    if hasApexCname zone then Except.error apexCnameError
    else
      match updateFirst
          (fun rr => rr.type == "TXT" && (rr.name == "" || rr.name == "@") &&
            rr.value != "" && jsStartsWith rr.value "v=spf1")
          (fun rr => { rr with value := spfValue, ttl := 300 }) rrs with
      | some rrs2 => Except.ok ⟨some rrs2⟩
      | none => Except.ok ⟨some (rrs ++ [⟨"", "TXT", spfValue, 300⟩])⟩
  | _ => Except.error "Invalid zone data received"

/-- The zone writes a call to `updateDomainSPFRecord` issues. -/
def spfWriteIssued : Except String Zone → List Zone
  | Except.ok z => [z]
  | Except.error _ => []

/-- `updateDomainDMARCRecord` after the zone has been fetched: `writeRes`
is the outcome of the `updateZone` call.  The source catches every error
and returns a boolean, so the model returns `(success, zone written)`;
it never throws. -/
def updateDomainDMARCRecord (zoneInfoData : Option (List Zone))
    (writeRes : Except String Unit) (dmarcValue : String) :
    Bool × Option Zone :=
  match zoneInfoData with
  | some (zone :: _) =>
    let rrs := zone.resourceRecords.getD []
    let rrs2 :=
      match updateFirst (fun rr => rr.type == "TXT" && rr.name == "_dmarc")
          (fun rr => { rr with value := dmarcValue, ttl := 300 }) rrs with
      | some l => l
      | none => rrs ++ [⟨"_dmarc", "TXT", dmarcValue, 300⟩]
    match writeRes with
    | Except.ok _ => (true, some ⟨some rrs2⟩)
    | Except.error _ => (false, some ⟨some rrs2⟩)
  | _ => (false, none)

/-- Claim C5: a fetched zone carrying a CNAME at the apex (name `` or
`@`) makes `updateDomainSPFRecord` fail with the specific conflict error
and issue no zone write, leaving the zone unchanged. -/
theorem apex_cname_blocks_spf_write :
    ∀ (zone : Zone) (rest : List Zone) (v : String),
      hasApexCname zone = true →
      updateDomainSPFRecord (some (zone :: rest)) v =
        Except.error apexCnameError ∧
      spfWriteIssued (updateDomainSPFRecord (some (zone :: rest)) v) = [] := by
  intro zone rest v h
  constructor <;> simp [updateDomainSPFRecord, h, spfWriteIssued]

theorem apex_cname_blocks_spf_write_witness :
    hasApexCname ⟨some [⟨"", "CNAME", "host.example", 300⟩]⟩ = true ∧
    updateDomainSPFRecord (some [⟨some [⟨"", "CNAME", "host.example", 300⟩]⟩])
        "v=spf1 -all" = Except.error apexCnameError ∧
    spfWriteIssued (updateDomainSPFRecord
        (some [⟨some [⟨"", "CNAME", "host.example", 300⟩]⟩]) "v=spf1 -all") = [] :=
  ⟨by decide,
    (apex_cname_blocks_spf_write ⟨some [⟨"", "CNAME", "host.example", 300⟩]⟩
      [] "v=spf1 -all" (by decide)).1,
    (apex_cname_blocks_spf_write ⟨some [⟨"", "CNAME", "host.example", 300⟩]⟩
      [] "v=spf1 -all" (by decide)).2⟩

/-! ### Health checks and the AutoDNS delegation pre-check
(`health-checks.js`, `dns-operations.js`) -/

/-- The nameserver patterns of the target authoritative provider. -/
def autodnsPatterns : List String :=
  ["a.ns14.net", "b.ns14.net", "c.ns14.net", "d.ns14.net"]

/-- The per-nameserver test of `usesAutoDNSNameservers`: lowercase, strip
one trailing dot, then exact match or dot-suffix match on a pattern. -/
def matchesAutoDNSPattern (nameserver : String) : Bool :=
  let nsLower := stripTrailingDot (jsToLower nameserver)
  autodnsPatterns.any (fun p => nsLower == p || jsEndsWith nsLower ("." ++ p))

/-- `usesAutoDNSNameservers` from `health-checks.js`; a thrown NS lookup
gives `false`. -/
def usesAutoDNSNameservers (env : Env) (domain : String) : Bool :=
  match env.resolveNs domain with
  | none => false
  | some ns => if ns.isEmpty then false else ns.any matchesAutoDNSPattern

/-- `nsHostsResolvable`: every host resolves to at least one address
(individual lookups fail empty). -/
def nsHostsResolvable (env : Env) (hosts : List String) : Bool :=
  hosts.all (fun h =>
    !(((env.resolve4 h).getD []).isEmpty && ((env.resolve6 h).getD []).isEmpty))

/-- `checkNS(...).ok`. -/
def checkNSok (env : Env) (domain : String) : Bool :=
  match env.resolveNs domain with
  | none => false
  | some ns => decide (2 ≤ ns.length) && nsHostsResolvable env ns

/-- `checkSOA(...).ok` (`checkSOASanity` bounds; a thrown or absent SOA
gives `false`). -/
def checkSOAok (env : Env) (domain : String) : Bool :=
  match env.resolveSoa domain with
  | none => false
  | some s =>
    decide (3600 ≤ s.refresh) && decide (s.refresh ≤ 86400) &&
      decide (300 ≤ s.retry) && decide (s.retry ≤ 7200) &&
      decide (604800 ≤ s.expire) && decide (s.expire ≤ 2419200) &&
      decide (60 ≤ s.minttl) && decide (s.minttl ≤ 86400)

/-- `checkCAA(...).ok`: absent is fine; if present, at least one
`issue`/`issuewild` semantic must appear. -/
def checkCAAok (env : Env) (domain : String) : Bool :=
  let caa := (env.resolveCaa domain).getD []
  let hasIssue := caa.any (fun r =>
    r.issue != "" || r.issuewild != "" ||
      (r.tag != "" && jsStartsWith r.tag "issue"))
  !(!caa.isEmpty) || hasIssue

/-- `checkMtaSts(...).ok`: TXT advertises `v=STSv1` and the HTTPS policy
fetch returns a body containing `version: STSv1`. -/
def checkMtaStsOk (env : Env) (domain : String) : Bool :=
  let txt := env.safeTxt ("_mta-sts." ++ domain)
  let joined := String.join txt.flatten
  let txtFound := decide (0 < txt.length) && containsSub joined "v=STSv1"
  let httpsOk :=
    if txtFound then
      match env.httpsFetch
          ("https://mta-sts." ++ domain ++ "/.well-known/mta-sts.txt") with
      | some body => containsSub body "version: STSv1"
      | none => false
    else false
  txtFound && httpsOk

/-- `checkTlsRpt(...).ok`. -/
def checkTlsRptOk (env : Env) (domain : String) : Bool :=
  let joined := String.join (env.safeTxt ("_smtp._tls." ++ domain)).flatten
  containsSub joined "v=TLSRPTv1" && containsSub joined "rua="

/-- `checkPTRForOutbound(...).ok`: first address of the MX host only. -/
def checkPTRok (env : Env) (mxHost : String) : Bool :=
  let ips := ((env.resolve4 mxHost).getD []) ++ ((env.resolve6 mxHost).getD [])
  match ips with
  | [] => false
  | ip :: _ => !((env.reversePtr ip).getD []).isEmpty

/-- `checkMXIntegrity(...).ok`. -/
def checkMXIntegrityOk (env : Env) (mxHosts : List String) : Bool :=
  decide (1 ≤ mxHosts.length) &&
    mxHosts.all (fun h =>
      !(((env.resolve4 h).getD []).isEmpty && ((env.resolve6 h).getD []).isEmpty))

/-- `ok`/`fail` flags of `buildHealthSummary`. -/
def flagStr (b : Bool) : String := if b then "ok" else "fail"

/-- `buildHealthSummary`: note the source formats NS, SOA, CAA, MTA, TLS
and PTR only — the MX integrity result is computed by the caller but not
included in the summary string. -/
def buildHealthSummary (ns soa caa mta tls ptr : Bool) : String :=
  "NS:" ++ flagStr ns ++ "; SOA:" ++ flagStr soa ++ "; CAA:" ++ flagStr caa ++
    "; MTA:" ++ flagStr mta ++ "; TLS:" ++ flagStr tls ++ "; PTR:" ++ flagStr ptr

/-- `addHealthChecks` from `domain-processor.js` (the checks are total,
so its catch branch is unreachable). -/
def addHealthChecks (env : Env) (domain : String) (mxDisplay : String) :
    String :=
  let mxHosts := if mxDisplay = "-" then [] else jsSplitComma mxDisplay
  let ns := checkNSok env domain
  let soa := checkSOAok env domain
  let caa := checkCAAok env domain
  let mta := checkMtaStsOk env domain
  let tls := checkTlsRptOk env domain
  let _mx := checkMXIntegrityOk env mxHosts
  let ptr := match mxHosts with
    | [] => false
    | h :: _ => checkPTRok env h
  buildHealthSummary ns soa caa mta tls ptr

/-- `getARecords` (zone records first, DNS fallback when none). -/
def getARecords (env : Env) (zone : Zone) (domainName : String) :
    List String :=
  let fromZone := (zone.resourceRecords.getD []).filterMap (fun rr =>
    if rr.type == "A" && (rr.name == "" || rr.name == "@") then some rr.value
    else none)
  if fromZone.isEmpty then (env.resolve4 domainName).getD [] else fromZone

/-- `getAAAARecords`. -/
def getAAAARecords (env : Env) (zone : Zone) (domainName : String) :
    List String :=
  let fromZone := (zone.resourceRecords.getD []).filterMap (fun rr =>
    if rr.type == "AAAA" && (rr.name == "" || rr.name == "@") then some rr.value
    else none)
  if fromZone.isEmpty then (env.resolve6 domainName).getD [] else fromZone

/-- `getMXRecords` (fallback values are the MX exchanges). -/
def getMXRecords (env : Env) (zone : Zone) (domainName : String) :
    List String :=
  let fromZone := (zone.resourceRecords.getD []).filterMap (fun rr =>
    if rr.type == "MX" && (rr.name == "" || rr.name == "@") then some rr.value
    else none)
  if fromZone.isEmpty then (env.resolveMx domainName).getD [] else fromZone

/-- `getRecordsForDomain`: `(aDisplay, aaaaDisplay, mxDisplay)`; a thrown
or invalid zone fetch keeps the `-` defaults. -/
def getRecordsForDomain (env : Env) (domainName : String) :
    String × String × String :=
  match env.zoneData with
  | some (zone :: _) =>
    let a := getARecords env zone domainName
    let aaaa := getAAAARecords env zone domainName
    let mx := getMXRecords env zone domainName
    (if a.isEmpty then "-" else joinSep "," a,
      if aaaa.isEmpty then "-" else joinSep "," aaaa,
      if mx.isEmpty then "-" else joinSep "," mx)
  | _ => ("-", "-", "-")

/-! ### Per-domain check (`domain-processor.js`) -/

/-- Observable API side effects of one `checkDomain` run: the DNS-based
DKIM probe, the zone-listing DKIM fallback, and each update operation
invoked (each update operation performs a zone write attempt). -/
inductive ApiEvent where
  | dkimDnsQuery
  | zoneDkimRead
  | updateDkim (selector : String)
  | updateSpf
  | dmarcReportAuth
  | updateDmarc
deriving Repr, DecidableEq

/-- JS object property access on an association list. -/
def lookupObj {α : Type} (l : List (String × α)) (k : String) : Option α :=
  (l.find? (fun kv => kv.1 == k)).map (fun kv => kv.2)

/-- `checkDKIMForDomain`: returns `(dkimInfo, dkimStatus, events)`.
The desired config entry for the domain is a selector→value list. -/
def checkDKIMForDomain (env : Env)
    (dkimCfg : List (String × List (String × String))) (domain : String) :
    String × String × List ApiEvent :=
  let desired := (lookupObj dkimCfg domain).getD []
  let hasNonEmpty := desired.any (fun kv => jsTrim kv.2 != "")
  if desired.isEmpty || !hasNonEmpty then
    ("DKIM: Skipped", "skipped", [])
  else
    let dnsResults := env.dkimDns
    let res2 :=
      if dnsResults.isEmpty then
        (if 0 < env.zoneDkim.length then env.zoneDkim else dnsResults,
          [ApiEvent.dkimDnsQuery, ApiEvent.zoneDkimRead])
      else (dnsResults, [ApiEvent.dkimDnsQuery])
    let dkimResults := res2.1
    let infoStatus :=
      if 0 < dkimResults.length then
        let sels := joinSep ", " (dkimResults.map (fun r => r.selector))
        ("DKIM: Found (" ++ sels ++ ")", "ok - selectors: " ++ sels)
      else ("DKIM: No records found", "fail \"No DKIM records found\"")
    let final := desired.foldl (fun (acc : String × List ApiEvent) kv =>
      if jsTrim kv.2 = "" then acc
      else
        match dkimResults.find? (fun r => r.selector == kv.1) with
        | none =>
          (if env.dkimUpdateOk kv.1 then "ok - created selector " ++ kv.1
            else "error \"Failed to create selector " ++ kv.1 ++ "\"",
            acc.2 ++ [ApiEvent.updateDkim kv.1])
        | some found =>
          if normWs (found.fullValue.getD "") != normWs kv.2 then
            (if env.dkimUpdateOk kv.1 then "ok - updated selector " ++ kv.1
              else "error \"Failed to update selector " ++ kv.1 ++ "\"",
              acc.2 ++ [ApiEvent.updateDkim kv.1])
          else acc) (infoStatus.2, res2.2)
    (infoStatus.1, final.1, final.2)

/-- The configuration values `checkDomain` reads. -/
structure AppConfig where
  expectedSpf : String
  expectedDmarc : String
deriving Repr, DecidableEq

/-- The per-domain result fields of `checkDomain` that carry data (the
ANSI console decoration fields are omitted). -/
structure CheckResult where
  spfRecordMsg : String
  spfStatus : String
  dmarcRecordMsg : String
  dmarcStatus : String
  dkimInfo : String
  dkimStatus : String
  aDisplay : String
  aaaaDisplay : String
  mxDisplay : String
  healthSummary : String
deriving Repr, DecidableEq

/-- The skip status used for domains not delegated to AutoDNS. -/
def skippedStatus : String := "skipped - not using AutoDNS nameservers"

/-- Outcome of one record query section of `checkDomain`. -/
structure QueryOutcome where
  recordMsg : String
  status : String
  needsUpdate : Bool
  currentValue : String
deriving Repr, DecidableEq

/-- `checkDomain` from `domain-processor.js`, returning the result record
and the list of API side effects.  Notes kept from the source:

* the SPF and DMARC query sections catch their own errors;
* `updateDomainSPFRecord` rethrows, so its failure is caught and tagged
  `error "Update failed: ..."`;
* `addDMARCReportAuthRecord` and `updateDomainDMARCRecord` catch
  internally and return booleans which the source never inspects, so the
  DMARC update branch always reports `ok - updated from "..."` — its
  catch branch is unreachable and the outcome does not depend on
  `env.dmarcUpdateOk`/`env.reportAuthOk`;
* the outer try/catch of the source is unreachable because every callee
  above is total. -/
def checkDomain (env : Env) (cfg : AppConfig)
    (dkimCfg : List (String × List (String × String))) (domain : String) :
    CheckResult × List ApiEvent :=
  if !usesAutoDNSNameservers env domain then
    let recs := getRecordsForDomain env domain
    let hs := addHealthChecks env domain recs.2.2
    ({ spfRecordMsg := "", spfStatus := skippedStatus,
       dmarcRecordMsg := "", dmarcStatus := skippedStatus,
       dkimInfo := "", dkimStatus := skippedStatus,
       aDisplay := recs.1, aaaaDisplay := recs.2.1, mxDisplay := recs.2.2,
       healthSummary := hs }, [])
  else
    let spfQ : QueryOutcome :=
      match env.spfQuery with
      | Except.ok (some cur) =>
        if cur = cfg.expectedSpf then ⟨"SPF: Correct", "ok", false, ""⟩
        else if cur != "" then ⟨"SPF: " ++ cur, "needs-update", true, cur⟩
        else ⟨"SPF: No record", "needs-update", true, "No SPF record"⟩
      | Except.ok none =>
        ⟨"SPF: No record", "needs-update", true, "No SPF record"⟩
      | Except.error m => ⟨"SPF Error: " ++ m, "error", false, m⟩
    let dmarcQ : QueryOutcome :=
      match env.dmarcQuery with
      | Except.ok cur =>
        if normalizeDMARC cur = normalizeDMARC (some cfg.expectedDmarc) then
          ⟨"DMARC: Correct", "ok", false, ""⟩
        else
          match cur with
          | some c =>
            if c != "" then ⟨"DMARC: " ++ c, "needs-update", true, c⟩
            else ⟨"DMARC: No record", "needs-update", true, "No DMARC record"⟩
          | none =>
            ⟨"DMARC: No record", "needs-update", true, "No DMARC record"⟩
      | Except.error m => ⟨"DMARC Error: " ++ m, "error", false, m⟩
    let dkim := checkDKIMForDomain env dkimCfg domain
    let spfF : String × String × List ApiEvent :=
      if spfQ.needsUpdate then
        match env.spfUpdateRes with
        | Except.ok _ =>
          ("SPF: Correct (updated)",
            "ok - updated from \"" ++ spfQ.currentValue ++ "\"",
            [ApiEvent.updateSpf])
        | Except.error m =>
          (spfQ.recordMsg, "error \"Update failed: " ++ m ++ "\"",
            [ApiEvent.updateSpf])
      else if spfQ.status = "error" then
        (spfQ.recordMsg, "error \"" ++ spfQ.currentValue ++ "\"", [])
      else (spfQ.recordMsg, spfQ.status, [])
    let dmarcF : String × String × List ApiEvent :=
      if dmarcQ.needsUpdate then
        ("DMARC: Correct (updated)",
          "ok - updated from \"" ++ dmarcQ.currentValue ++ "\"",
          [ApiEvent.dmarcReportAuth, ApiEvent.updateDmarc])
      else if dmarcQ.status = "error" then
        (dmarcQ.recordMsg, "error \"" ++ dmarcQ.currentValue ++ "\"", [])
      else (dmarcQ.recordMsg, dmarcQ.status, [])
    let recs := getRecordsForDomain env domain
    let hs := addHealthChecks env domain recs.2.2
    ({ spfRecordMsg := spfF.1, spfStatus := spfF.2.1,
       dmarcRecordMsg := dmarcF.1, dmarcStatus := dmarcF.2.1,
       dkimInfo := dkim.1, dkimStatus := dkim.2.1,
       aDisplay := recs.1, aaaaDisplay := recs.2.1, mxDisplay := recs.2.2,
       healthSummary := hs },
      dkim.2.2 ++ spfF.2.2 ++ dmarcF.2.2)

/-! ### Claims C6 — C9 -/

/-- Claim C6: a domain whose nameservers all fail the AutoDNS pattern
test gets `skipped - not using AutoDNS nameservers` for SPF, DMARC and
DKIM, no API side effect (in particular no zone write), while the
A/AAAA/MX record retrieval and the health-check aggregation still run and
populate the result. -/
theorem non_autodns_domain_skips_writes :
    ∀ (env : Env) (cfg : AppConfig)
      (dkimCfg : List (String × List (String × String)))
      (domain : String) (nsl : List String),
      env.resolveNs domain = some nsl →
      (∀ h ∈ nsl, matchesAutoDNSPattern h = false) →
      (checkDomain env cfg dkimCfg domain).1.spfStatus = skippedStatus ∧
      (checkDomain env cfg dkimCfg domain).1.dmarcStatus = skippedStatus ∧
      (checkDomain env cfg dkimCfg domain).1.dkimStatus = skippedStatus ∧
      (checkDomain env cfg dkimCfg domain).2 = [] ∧
      (checkDomain env cfg dkimCfg domain).1.aDisplay =
        (getRecordsForDomain env domain).1 ∧
      (checkDomain env cfg dkimCfg domain).1.aaaaDisplay =
        (getRecordsForDomain env domain).2.1 ∧
      (checkDomain env cfg dkimCfg domain).1.mxDisplay =
        (getRecordsForDomain env domain).2.2 ∧
      (checkDomain env cfg dkimCfg domain).1.healthSummary =
        addHealthChecks env domain (getRecordsForDomain env domain).2.2 := by
  intro env cfg dkimCfg domain nsl hns hmatch
  have hu : usesAutoDNSNameservers env domain = false := by
    simp only [usesAutoDNSNameservers, hns]
    cases nsl with
    | nil => simp
    | cons a as =>
      simp only [List.isEmpty_cons, Bool.false_eq_true, if_false,
        List.any_eq_false]
      intro x hx
      simp [hmatch x hx]
  refine ⟨?_, ?_, ?_, ?_, ?_, ?_, ?_, ?_⟩ <;> simp [checkDomain, hu]

/-- Environment of a domain that is served by non-AutoDNS nameservers
but still has zone data and resolvable records. -/
def nonAutoEnv : Env :=
  { defaultEnv with
    resolveNs := fun d =>
      if d = "other.example" then some ["ns1.other.net", "ns2.other.net"]
      else none,
    zoneData := some [⟨some [⟨"", "A", "192.0.2.7", 300⟩,
      ⟨"", "MX", "mail.other.example", 300⟩]⟩] }

theorem non_autodns_domain_skips_writes_witness :
    nonAutoEnv.resolveNs "other.example" =
      some ["ns1.other.net", "ns2.other.net"] ∧
    (∀ h ∈ ["ns1.other.net", "ns2.other.net"],
      matchesAutoDNSPattern h = false) ∧
    (checkDomain nonAutoEnv ⟨"v=spf1 -all", "v=DMARC1; p=reject"⟩ []
        "other.example").1.spfStatus = skippedStatus ∧
    (checkDomain nonAutoEnv ⟨"v=spf1 -all", "v=DMARC1; p=reject"⟩ []
        "other.example").2 = [] := by
  refine ⟨by decide, by decide, ?_, ?_⟩
  · exact (non_autodns_domain_skips_writes nonAutoEnv
      ⟨"v=spf1 -all", "v=DMARC1; p=reject"⟩ [] "other.example"
      ["ns1.other.net", "ns2.other.net"] (by decide) (by decide)).1
  · exact (non_autodns_domain_skips_writes nonAutoEnv
      ⟨"v=spf1 -all", "v=DMARC1; p=reject"⟩ [] "other.example"
      ["ns1.other.net", "ns2.other.net"] (by decide) (by decide)).2.2.2.1

/-- Environment for claim C7: `ok.example` resolves, `nohost.example`
does not (no A and no AAAA records). -/
def aFallbackEnv : Env :=
  { defaultEnv with
    resolve4 := fun h => if h = "ok.example" then some ["1.2.3.4"] else none }

/-- Claim C7 (code bug): when an `a:host`/`mx:host` term fails forward
resolution (the host yields no address), the term is dropped — the
mechanisms come back empty instead of keeping the original term as a
fallback.  The fallback push in the catch branch of `resolveSpfIncludes`
is unreachable because `resolveHostToIPs`/`resolveMxToIPs` swallow
resolver errors and return `[]`.  The success half of the claim holds:
a resolvable term is replaced by the concrete `ip4:`/`ip6:` mechanisms. -/
theorem unresolved_host_term_dropped_bug :
    (resolveSpfIncludes aFallbackEnv "v=spf1 a:nohost.example -all" [] 0).mechanisms = [] ∧
    "a:nohost.example" ∉
      (resolveSpfIncludes aFallbackEnv "v=spf1 a:nohost.example -all" [] 0).mechanisms ∧
    (resolveSpfIncludes aFallbackEnv "v=spf1 mx:nohost.example -all" [] 0).mechanisms = [] ∧
    (resolveSpfIncludes aFallbackEnv "v=spf1 a:ok.example -all" [] 0).mechanisms =
      ["ip4:1.2.3.4"] ∧
    resolveHostToIPs aFallbackEnv "nohost.example" = [] ∧
    resolveMxToIPs aFallbackEnv "nohost.example" = [] :=
  ⟨by decide, by decide, by decide, by decide, by decide, by decide⟩

/-- Environment for claim C8: the domain is on AutoDNS, its SPF matches,
it has no DMARC record, and the DMARC zone write fails
(`dmarcUpdateOk = false`). -/
def dmarcBugEnv : Env :=
  { defaultEnv with
    resolveNs := fun d => if d = "bug.example" then some ["a.ns14.net"] else none,
    spfQuery := Except.ok (some "v=spf1 -all"),
    dmarcQuery := Except.ok none,
    dmarcUpdateOk := false }

/-- The configuration used in the C8 scenario. -/
def dmarcBugCfg : AppConfig := ⟨"v=spf1 -all", "v=DMARC1; p=reject"⟩

/-- Claim C8 (code bug): when the DMARC zone write fails,
`updateDomainDMARCRecord` returns `false` instead of throwing, and
`checkDomain` ignores that boolean, so the domain's DMARC outcome is
`ok - updated from "No DMARC record"` — an ok/updated outcome, not the
error-tagged result the claim (and the propagation policy of the spec)
require.  The result is bitwise independent of the write outcome, and the
other checks of the domain do complete. -/
theorem dmarc_write_failure_reported_ok_bug :
    (updateDomainDMARCRecord (some [⟨some []⟩])
        (Except.error "zone write failed") "v=DMARC1; p=reject").1 = false ∧
    (checkDomain dmarcBugEnv dmarcBugCfg [] "bug.example").1.dmarcStatus =
      "ok - updated from \"No DMARC record\"" ∧
    (checkDomain { dmarcBugEnv with dmarcUpdateOk := true } dmarcBugCfg []
        "bug.example").1 =
      (checkDomain dmarcBugEnv dmarcBugCfg [] "bug.example").1 ∧
    (checkDomain dmarcBugEnv dmarcBugCfg [] "bug.example").1.spfStatus = "ok" ∧
    (checkDomain dmarcBugEnv dmarcBugCfg [] "bug.example").1.dkimStatus =
      "skipped" ∧
    (checkDomain dmarcBugEnv dmarcBugCfg [] "bug.example").1.healthSummary =
      "NS:fail; SOA:fail; CAA:ok; MTA:fail; TLS:fail; PTR:fail" :=
  ⟨by decide, by decide, by decide, by decide, by decide, by decide⟩

/-- Claim C9 (amended): a desired DKIM config entry with only
empty-valued selectors — and likewise a domain with no entry at all —
reports `skipped` with no DNS query and no zone write; the two cases
produce identical output (they are not distinguishable). -/
theorem dkim_empty_config_skipped :
    (∀ (env : Env) (dkimCfg : List (String × List (String × String)))
      (domain : String) (desired : List (String × String)),
        lookupObj dkimCfg domain = some desired →
        (∀ kv ∈ desired, jsTrim kv.2 = "") →
        checkDKIMForDomain env dkimCfg domain = ("DKIM: Skipped", "skipped", [])) ∧
    (∀ (env : Env) (dkimCfg : List (String × List (String × String)))
      (domain : String),
        lookupObj dkimCfg domain = none →
        checkDKIMForDomain env dkimCfg domain = ("DKIM: Skipped", "skipped", [])) := by
  constructor
  · intro env dkimCfg domain desired hl hall
    have h2 : desired.any (fun kv => jsTrim kv.2 != "") = false := by
      rw [List.any_eq_false]
      intro kv hkv
      simp [hall kv hkv]
    simp [checkDKIMForDomain, hl, h2]
  · intro env dkimCfg domain hl
    simp [checkDKIMForDomain, hl]

theorem dkim_empty_config_skipped_witness :
    lookupObj [("w.example", [("default", ""), ("s2", " ")])] "w.example" =
      some [("default", ""), ("s2", " ")] ∧
    (∀ kv ∈ [("default", ""), ("s2", " ")], jsTrim (Prod.snd kv) = "") ∧
    checkDKIMForDomain defaultEnv
      [("w.example", [("default", ""), ("s2", " ")])] "w.example" =
      ("DKIM: Skipped", "skipped", []) :=
  ⟨by decide, by decide,
    dkim_empty_config_skipped.1 defaultEnv
      [("w.example", [("default", ""), ("s2", " ")])] "w.example"
      [("default", ""), ("s2", " ")] (by decide) (by decide)⟩

/-- Claim C9 counterexample: the all-empty-values entry and the missing
entry give byte-identical output, so the `skipped` of an empty-valued
config is not distinguishable from the no-config-at-all case. -/
theorem dkim_skipped_not_distinguishable :
    checkDKIMForDomain defaultEnv [("d.example", [("default", "")])]
      "d.example" = ("DKIM: Skipped", "skipped", []) ∧
    checkDKIMForDomain defaultEnv [] "d.example" =
      ("DKIM: Skipped", "skipped", []) ∧
    checkDKIMForDomain defaultEnv [("d.example", [("default", "")])]
        "d.example" =
      checkDKIMForDomain defaultEnv [] "d.example" :=
  ⟨by decide, by decide, by decide⟩

/-! ### `updateZone` payload construction (`autodns-client.js`) -/

/-- The read-only zone metadata fields stripped before transmission. -/
def readOnlyFields : List String :=
  ["created", "updated", "owner", "updater", "roid"]

/-- `delete obj[k]` on a JS object modelled as an ordered field list
(values are opaque references — a spread copy shares them). -/
def deleteField {α : Type} (o : List (String × α)) (k : String) :
    List (String × α) :=
  o.filter (fun kv => kv.1 != k)

/-- `const updatePayload = { ...zoneData };` followed by
`readOnlyFields.forEach((field) => delete updatePayload[field]);` —
the deletions run on the spread copy, never on `zoneData` itself. -/
def updateZonePayload {α : Type} (zoneData : List (String × α)) :
    List (String × α) :=
  readOnlyFields.foldl deleteField zoneData

/-- `updateZone` observable behaviour for a given `zoneData`: first
component is the transmitted payload (`none` in dry-run mode, where no
network call is made and nothing is stripped), second component is the
caller's `zoneData` object after the call. -/
def updateZoneSend {α : Type} (dryRun : Bool)
    (zoneData : List (String × α)) :
    Option (List (String × α)) × List (String × α) :=
  if dryRun then (none, zoneData)
  else (some (updateZonePayload zoneData), zoneData)

theorem foldl_deleteField_eq {α : Type} :
    ∀ (ks : List String) (o : List (String × α)),
      ks.foldl deleteField o = o.filter (fun kv => !ks.contains kv.1) := by
  intro ks
  induction ks with
  | nil =>
    intro o
    simp [deleteField]
  | cons k ks ih =>
    intro o
    simp only [List.foldl_cons, ih, deleteField, List.filter_filter]
    apply List.filter_congr
    intro kv _
    by_cases h : kv.1 = k
    · simp [h]
    · simp [h]

/-- Claim C10: the payload `updateZone` transmits is built from a shallow
copy of `zoneData` with exactly the read-only fields `created`,
`updated`, `owner`, `updater` and `roid` removed (all other fields kept,
in order, with their values shared), and the caller's `zoneData` object
is never mutated — after the call it still has all of its original
top-level fields, the read-only ones included. -/
theorem updateZone_strips_readonly_on_copy :
    ∀ (α : Type) (dryRun : Bool) (zoneData : List (String × α)),
      (updateZoneSend dryRun zoneData).2 = zoneData ∧
      (dryRun = false →
        (updateZoneSend dryRun zoneData).1 =
          some (zoneData.filter (fun kv => !readOnlyFields.contains kv.1))) ∧
      (∀ p, (updateZoneSend dryRun zoneData).1 = some p →
        (∀ k v, (k, v) ∈ p ↔ ((k, v) ∈ zoneData ∧ k ∉ readOnlyFields)) ∧
        ∀ k v, k ∈ readOnlyFields → (k, v) ∉ p) := by
  intro α dryRun zoneData
  cases dryRun with
  | true =>
    refine ⟨rfl, ?_, ?_⟩
    · intro h
      simp at h
    · intro p hp
      simp [updateZoneSend] at hp
  | false =>
    have hpay : (updateZoneSend false zoneData).1 =
        some (zoneData.filter (fun kv => !readOnlyFields.contains kv.1)) := by
      simp [updateZoneSend, updateZonePayload, foldl_deleteField_eq]
    refine ⟨rfl, fun _ => hpay, ?_⟩
    intro p hp
    rw [hpay] at hp
    obtain rfl : p = zoneData.filter (fun kv => !readOnlyFields.contains kv.1) :=
      (Option.some.injEq _ _ ▸ hp).symm ▸ rfl
    constructor
    · intro k v
      simp [List.mem_filter, List.elem_iff]
    · intro k v hk
      simp [List.mem_filter, List.elem_iff, hk]

theorem updateZone_strips_readonly_on_copy_witness :
    ((false = false) →
      (updateZoneSend false
          [("origin", "example.com"), ("created", "2020"), ("owner", "ow"),
            ("updated", "2021"), ("updater", "up"), ("roid", "r1"),
            ("soa", "soa-data")]).1 =
        some ([("origin", "example.com"), ("created", "2020"), ("owner", "ow"),
            ("updated", "2021"), ("updater", "up"), ("roid", "r1"),
            ("soa", "soa-data")].filter
          (fun kv => !readOnlyFields.contains kv.1))) ∧
    (updateZoneSend false
        [("origin", "example.com"), ("created", "2020"), ("owner", "ow"),
          ("updated", "2021"), ("updater", "up"), ("roid", "r1"),
          ("soa", "soa-data")]).2 =
      [("origin", "example.com"), ("created", "2020"), ("owner", "ow"),
        ("updated", "2021"), ("updater", "up"), ("roid", "r1"),
        ("soa", "soa-data")] ∧
    (updateZoneSend false
        [("origin", "example.com"), ("created", "2020"), ("owner", "ow"),
          ("updated", "2021"), ("updater", "up"), ("roid", "r1"),
          ("soa", "soa-data")]).1 =
      some [("origin", "example.com"), ("soa", "soa-data")] :=
  ⟨(updateZone_strips_readonly_on_copy String false
      [("origin", "example.com"), ("created", "2020"), ("owner", "ow"),
        ("updated", "2021"), ("updater", "up"), ("roid", "r1"),
        ("soa", "soa-data")]).2.1,
    (updateZone_strips_readonly_on_copy String false
      [("origin", "example.com"), ("created", "2020"), ("owner", "ow"),
        ("updated", "2021"), ("updater", "up"), ("roid", "r1"),
        ("soa", "soa-data")]).1,
    by decide⟩

end AutoDNS
